import Mathlib

/-!
Shallow embedding of the request handlers of `src/server.js` (an Express
gateway that proxies weather, country, continent and currency-conversion
APIs).  Each handler is modelled as a pure function from its request
parameters and the upstream response to an HTTP response.  The upstream
response is an `Option` of a payload record: `none` models any axios
failure (network error or non-2xx status, both of which make axios throw),
`some p` models a 2xx response whose JSON body is `p`.  Fields of the
payload records are `Option`s because the upstream JSON may omit them;
accessing a field of a missing object throws a TypeError in JS, which the
try/catch in the handlers turns into the 500 response, and is modelled here with
`Except Unit`.  Interpolating a missing leaf value into a template literal
does not throw in JS: it produces the string "undefined", and arithmetic
on it produces NaN; both behaviours are modelled explicitly below.
-/

/-- An HTTP response: either a JSON body (res.json) or a status code with a
plain-text body (res.status(...).send(...)). -/
inductive HResp (α : Type) where
  | json (body : α)
  | err (status : Nat) (msg : String)
  deriving Repr, DecidableEq

/-- JS truthiness of a possibly-undefined string value: undefined and the
empty string are falsy, every other string is truthy. -/
def jsTruthyStr : Option String → Bool
  | none => false
  | some s => s ≠ ""

/-- JS `v ? v : dflt` on a possibly-undefined string value. -/
def jsTruthyOr (v : Option String) (dflt : String) : String :=
  match v with
  | none => dflt
  | some s => if s = "" then dflt else s

/-- JS `Array.prototype.map` with a callback that may throw: the map is
applied left to right and the first throw aborts the whole handler. -/
def mapExcept {α β : Type} (f : α → Except Unit β) : List α → Except Unit (List β)
  | [] => .ok []
  | a :: as =>
    match f a with
    | .error e => .error e
    | .ok b =>
      match mapExcept f as with
      | .error e => .error e
      | .ok bs => .ok (b :: bs)

/-- ASCII lower-casing of one character, modelling the effect of JS
`String.prototype.toLowerCase` on the ASCII range. -/
def jsToLowerChar (c : Char) : Char :=
  if 'A' ≤ c ∧ c ≤ 'Z' then Char.ofNat (c.toNat + 32) else c

/-- ASCII upper-casing of one character, modelling JS `toUpperCase`. -/
def jsToUpperChar (c : Char) : Char :=
  if 'a' ≤ c ∧ c ≤ 'z' then Char.ofNat (c.toNat - 32) else c

/-- JS `s.toLowerCase()` restricted to the ASCII range. -/
def jsToLower (s : String) : String :=
  String.mk (s.data.map jsToLowerChar)

/-- JS `s.toUpperCase()` restricted to the ASCII range. -/
def jsToUpper (s : String) : String :=
  String.mk (s.data.map jsToUpperChar)

/-- Decimal digits of the fraction `rem / den` (with `rem < den`) by long
division, up to `fuel` digits.  Stand-in for the JS number-to-string
fraction rendering in the JS number-to-string conversion. -/
def fracDigits : Nat → Nat → Nat → String
  | 0, _, _ => ""
  | fuel + 1, rem, den =>
    if rem = 0 then ""
    else toString (rem * 10 / den) ++ fracDigits fuel (rem * 10 % den) den

/-- Decimal rendering of a nonnegative rational (given through its
numerator and denominator), up to 20 fraction digits. -/
def ratToStringNonneg (q : ℚ) : String :=
  let n := q.num.toNat
  let ip := n / q.den
  let rem := n % q.den
  if rem = 0 then toString ip
  else toString ip ++ "." ++ fracDigits 20 rem q.den

/-- Model of the JS number-to-string conversion used by template literals
(`${x}`) for a definite numeric value: decimal notation with up to 20
fraction digits. -/
def jsNumToString (q : ℚ) : String :=
  if q.num < 0 then "-" ++ ratToStringNonneg (-q) else ratToStringNonneg q

/-- JS template-literal interpolation `${x}` of a possibly-undefined
numeric value: undefined renders as the string "undefined". -/
def jsStr : Option ℚ → String
  | none => "undefined"
  | some q => jsNumToString q

/-- Insert a comma after every third character; applied to the reversed
digit list it produces the en-US thousands grouping. -/
def group3 : List Char → List Char
  | [] => []
  | [a] => [a]
  | [a, b] => [a, b]
  | [a, b, c] => [a, b, c]
  | a :: b :: c :: d :: rest => a :: b :: c :: ',' :: group3 (d :: rest)

/-- Model of JS `Number.prototype.toLocaleString` on an integer under the
default en-US locale of the server: thousands separated by commas. -/
def jsLocaleInt (n : Int) : String :=
  (if n < 0 then "-" else "") ++
    String.mk (group3 (toString n.natAbs).data.reverse).reverse

/-- Two-digit zero-padded rendering of `m < 100`. -/
def twoDigits (m : Nat) : String :=
  if m < 10 then "0" ++ toString m else toString m

/-- Three-digit zero-padded rendering of `m < 1000`. -/
def threeDigits (m : Nat) : String :=
  if m < 100 then "0" ++ twoDigits m else toString m

/-- Model of JS `Number.prototype.toLocaleString` on a general number
(used for `area`): grouped integer part and at most 3 fraction digits,
rounded to nearest with ties away from zero, trailing zeros stripped.
With `|q| = a / d`, the rounded scaled value `⌊|q| * 1000 + 1/2⌋` is the
natural number `(a * 2000 + d) / (2 * d)`. -/
def jsLocaleRat (q : ℚ) : String :=
  let sign := if q.num < 0 then "-" else ""
  let n := (q.num.natAbs * 2000 + q.den) / (2 * q.den)
  let ip := n / 1000
  let fp := n % 1000
  if fp = 0 then sign ++ jsLocaleInt ip
  else
    sign ++ jsLocaleInt ip ++ "." ++
      String.mk ((threeDigits fp).data.reverse.dropWhile (· = '0')).reverse

/-- ECMAScript `Number.prototype.toFixed(2)` on a definite numeric value:
round to the nearest hundredth, ties choosing the larger numerator (i.e.
away from zero after the sign is split off), then print 2 fraction
digits.  With `|q| = a / d`, the rounded scaled value `⌊|q| * 100 + 1/2⌋`
is the natural number `(a * 200 + d) / (2 * d)`. -/
def ratToFixed2 (q : ℚ) : String :=
  let sign := if q.num < 0 then "-" else ""
  let n := (q.num.natAbs * 200 + q.den) / (2 * q.den)
  sign ++ toString (n / 100) ++ "." ++ twoDigits (n % 100)

/-- JS `x.toFixed(2)` where `x` may be NaN (modelled as `none`):
`NaN.toFixed(2)` is the string "NaN". -/
def jsToFixed2 : Option ℚ → String
  | none => "NaN"
  | some q => ratToFixed2 q

/-- JS multiplication with NaN propagation: if either operand is NaN the
product is NaN. -/
def jsMulOpt : Option ℚ → Option ℚ → Option ℚ
  | some a, some b => some (a * b)
  | _, _ => none

/-- Parse an unsigned decimal digit string. -/
def parseDigits : List Char → Option Nat
  | [] => none
  | cs => cs.foldl (fun acc c =>
      match acc with
      | none => none
      | some n => if c.isDigit then some (n * 10 + (c.toNat - 48)) else none)
      (some 0)

/-- Model of the JS numeric coercion `Number(s)` applied during the
multiplication `amount * rate`, for plain decimal literals with an
optional sign and fraction; every other string coerces to NaN (`none`).
(Whitespace trimming, hex/exponent forms and the empty string are not
modelled: the empty string is unreachable behind the truthiness guard.) -/
def jsParseNumber (s : String) : Option ℚ :=
  let core (cs : List Char) : Option ℚ :=
    match cs.splitOn '.' with
    | [ip] => (parseDigits ip).map (fun n => (n : ℚ))
    | [ip, fp] =>
      match parseDigits ip, parseDigits fp with
      | some n, some f => some ((n : ℚ) + (f : ℚ) / ((10 : ℚ) ^ fp.length))
      | _, _ => none
    | _ => none
  match s.data with
  | '-' :: rest => (core rest).map (fun q => -q)
  | '+' :: rest => core rest
  | cs => core cs

/-- Model of `Date.prototype.toLocaleTimeString` for a date built from a
possibly-NaN millisecond timestamp: an invalid date renders as
"Invalid Date"; a valid one is rendered as UTC HH:MM:SS (a stand-in for
the locale- and timezone-dependent formatting of the server). -/
def jsLocaleTimeString : Option Int → String
  | none => "Invalid Date"
  | some ms =>
    let s := ((ms / 1000) % 86400).toNat
    twoDigits (s / 3600) ++ ":" ++ twoDigits ((s / 60) % 60) ++ ":" ++ twoDigits (s % 60)

/-- Model of `Date.prototype.toLocaleDateString` for a possibly-NaN
millisecond timestamp: an invalid date renders as "Invalid Date"; a valid
one is rendered by its UTC epoch-day number (a stand-in for the locale-
and timezone-dependent calendar formatting, which no claim inspects). -/
def jsLocaleDateString : Option Int → String
  | none => "Invalid Date"
  | some ms => "epoch-day " ++ toString (ms / 86400000)

/-! ### Weather payloads and the two weather handlers -/

/-- One element of the upstream `weather` array. -/
structure WeatherCond where
  main : Option String
  description : Option String
  deriving Repr, DecidableEq

/-- The upstream `main` object (temperatures and humidity). -/
structure WeatherMain where
  temp : Option ℚ
  feels_like : Option ℚ
  humidity : Option ℚ
  deriving Repr, DecidableEq

/-- The upstream `wind` object. -/
structure WindInfo where
  speed : Option ℚ
  deriving Repr, DecidableEq

/-- The upstream `sys` object (sunrise/sunset epoch seconds). -/
structure SysInfo where
  sunrise : Option Int
  sunset : Option Int
  deriving Repr, DecidableEq

/-- Body of a 2xx response of the current-weather upstream. -/
structure CurrentWeatherPayload where
  weather : Option (List WeatherCond)
  main : Option WeatherMain
  wind : Option WindInfo
  sys : Option SysInfo
  deriving Repr, DecidableEq

/-- The JSON body built by GET /currentWeather/:city/:country. -/
structure WeatherSummary where
  location : String
  description : Option String
  temperature : String
  feels_like : String
  humidity : String
  wind_speed : String
  sunrise : String
  sunset : String
  deriving Repr, DecidableEq

/-- The response-object literal of the current-weather handler
(src/server.js lines 40-49); a TypeError (modelled `.error ()`) is raised
when `weather` is missing or empty (`weather[0]` is then undefined and
`.description` throws), or `main`, `wind` or `sys` is missing.  Nesting
follows the evaluation order of the object literal. -/
def buildWeatherSummary (city country : String) (w : CurrentWeatherPayload) :
    Except Unit WeatherSummary :=
  match w.weather with
  | none => .error ()
  | some conds =>
    match conds.head? with
    | none => .error ()
    | some c0 =>
      match w.main with
      | none => .error ()
      | some m =>
        match w.wind with
        | none => .error ()
        | some wind =>
          match w.sys with
          | none => .error ()
          | some sys =>
            .ok { location := city ++ ", " ++ country
                , description := c0.description
                , temperature := jsStr m.temp ++ "°C"
                , feels_like := jsStr m.feels_like ++ "°C"
                , humidity := jsStr m.humidity ++ "%"
                , wind_speed := jsStr wind.speed ++ " m/s"
                , sunrise := jsLocaleTimeString (sys.sunrise.map (· * 1000))
                , sunset := jsLocaleTimeString (sys.sunset.map (· * 1000)) }

/-- GET /currentWeather/:city/:country (src/server.js lines 33-54). -/
def getCurrentWeather (city country : String)
    (upstream : Option CurrentWeatherPayload) : HResp WeatherSummary :=
  match upstream with
  | none => .err 500 "Error retrieving current weather"
  | some w =>
    match buildWeatherSummary city country w with
    | .ok s => .json s
    | .error _ => .err 500 "Error retrieving current weather"

/-- One element of the upstream forecast `list` array. -/
structure ForecastItem where
  dt : Option Int
  main : Option WeatherMain
  weather : Option (List WeatherCond)
  wind : Option WindInfo
  deriving Repr, DecidableEq

/-- One element of the `forecast` array built by the forecast handler. -/
structure ForecastEntry where
  date : String
  time : String
  temperature : String
  feels_like : String
  main : Option String
  description : Option String
  wind_speed : String
  humidity : String
  deriving Repr, DecidableEq

/-- Body of a 2xx response of the forecast upstream. -/
structure ForecastPayload where
  list : Option (List ForecastItem)
  deriving Repr, DecidableEq

/-- The JSON body built by GET /forecast/:city/:country. -/
structure ForecastResult where
  location : String
  forecast : List ForecastEntry
  deriving Repr, DecidableEq

/-- The per-entry arrow function of `response.data.list.map`
(src/server.js lines 63-72); throws when `main`, `wind` or `weather` is
missing or `weather` is empty.  A missing `dt` does not throw:
`new Date(undefined * 1000)` is an Invalid Date. -/
def buildForecastEntry (e : ForecastItem) : Except Unit ForecastEntry :=
  match e.main with
  | none => .error ()
  | some m =>
    match e.weather with
    | none => .error ()
    | some conds =>
      match conds.head? with
      | none => .error ()
      | some c0 =>
        match e.wind with
        | none => .error ()
        | some wind =>
          .ok { date := jsLocaleDateString (e.dt.map (· * 1000))
              , time := jsLocaleTimeString (e.dt.map (· * 1000))
              , temperature := jsStr m.temp ++ "°C"
              , feels_like := jsStr m.feels_like ++ "°C"
              , main := c0.main
              , description := c0.description
              , wind_speed := jsStr wind.speed ++ " m/s"
              , humidity := jsStr m.humidity ++ "%" }

/-- GET /forecast/:city/:country (src/server.js lines 57-82). -/
def getForecast (city country : String) (upstream : Option ForecastPayload) :
    HResp ForecastResult :=
  match upstream with
  | none => .err 500 "Error retrieving 5-day forecast"
  | some p =>
    match p.list with
    | none => .err 500 "Error retrieving 5-day forecast"
    | some items =>
      match mapExcept buildForecastEntry items with
      | .ok entries => .json { location := city ++ ", " ++ country, forecast := entries }
      | .error _ => .err 500 "Error retrieving 5-day forecast"

/-! ### Country payloads and the two country handlers -/

/-- The upstream `name` object. -/
structure NameObj where
  common : Option String
  deriving Repr, DecidableEq

/-- The upstream `flags` object. -/
structure FlagsObj where
  svg : Option String
  deriving Repr, DecidableEq

/-- One value of the upstream `currencies` object. -/
structure CurrencyObj where
  name : Option String
  deriving Repr, DecidableEq

/-- One country record of the REST Countries payload.  `languages` and
`currencies` stand for the ordered value lists of the corresponding JSON
objects (`Object.values`). -/
structure CountryData where
  name : Option NameObj
  capital : Option (List String)
  population : Option Int
  area : Option ℚ
  languages : Option (List String)
  currencies : Option (List CurrencyObj)
  region : Option String
  subregion : Option String
  flags : Option FlagsObj
  deriving Repr, DecidableEq

/-- JS `Array.prototype.join` with separator ", " on a string array. -/
def jsJoinStr (l : List String) : String :=
  String.intercalate ", " l

/-- JS `Array.prototype.join` with separator ", " on an array that may hold undefined
elements: join renders undefined as the empty string. -/
def jsJoinOpt (l : List (Option String)) : String :=
  String.intercalate ", " (l.map (fun o => o.getD ""))

/-- JS `country.capital ? country.capital[0] : "Not Available"`: an absent
capital array defaults; a present but empty array yields `capital[0]`
= undefined (serialised by res.json as an omitted key, modelled `none`). -/
def capitalField (capital : Option (List String)) : Option String :=
  match capital with
  | none => some "Not Available"
  | some l => l.head?

/-- The JSON body built by GET /country/:countryName. -/
structure CountryProfile where
  countryName : Option String
  capitalCity : Option String
  population : String
  area : String
  officialLanguage : String
  currencies : String
  region : Option String
  subregion : String
  flag : String
  deriving Repr, DecidableEq

/-- The `countryInfo` object literal of the country handler
(src/server.js lines 91-101); a TypeError (modelled `.error ()`) is
raised when `name`, `population`, `area` or `flags` is missing.  Note
`area` is accessed unconditionally (`country.area.toLocaleString()`),
unlike the guarded optional fields. -/
def buildCountryInfo (c : CountryData) : Except Unit CountryProfile :=
  match c.name with
  | none => .error ()
  | some nm =>
    match c.population with
    | none => .error ()
    | some pop =>
      match c.area with
      | none => .error ()
      | some ar =>
        match c.flags with
        | none => .error ()
        | some fl =>
          .ok { countryName := nm.common
              , capitalCity := capitalField c.capital
              , population := jsLocaleInt pop
              , area := jsLocaleRat ar ++ " km²"
              , officialLanguage :=
                  match c.languages with
                  | none => "Not Available"
                  | some ls => jsJoinStr ls
              , currencies :=
                  match c.currencies with
                  | none => "Not Available"
                  | some cs => jsJoinOpt (cs.map CurrencyObj.name)
              , region := c.region
              , subregion := jsTruthyOr c.subregion "Not Available"
              , flag := jsTruthyOr fl.svg "Not Available" }

/-- GET /country/:countryName (src/server.js lines 86-107).  The upstream
body is a list of fuzzy matches; the handler takes `response.data[0]`
(an empty list makes the member access throw). -/
def getCountryInfo (countryName : String)
    (upstream : Option (List CountryData)) : HResp CountryProfile :=
  match upstream with
  | none => .err 500 ("Error retrieving information about " ++ countryName)
  | some data =>
    match data.head? with
    | none => .err 500 ("Error retrieving information about " ++ countryName)
    | some c =>
      match buildCountryInfo c with
      | .ok p => .json p
      | .error _ => .err 500 ("Error retrieving information about " ++ countryName)

/-- One element of the `countries` array built by the continent handler. -/
structure ContinentCountry where
  countryName : Option String
  capitalCity : Option String
  population : String
  area : String
  languages : String
  flag : String
  deriving Repr, DecidableEq

/-- The JSON body built by GET /continent/:continentName. -/
structure ContinentListing where
  continent : String
  numberOfCountries : Nat
  countries : List ContinentCountry
  deriving Repr, DecidableEq

/-- The filter predicate of the continent handler (src/server.js line 116):
`country.region?.toLowerCase() === continentName.toLowerCase()`.  Optional
chaining makes an absent region compare as undefined, which is never
strictly equal to a string. -/
def regionMatches (c : CountryData) (continentName : String) : Bool :=
  match c.region with
  | none => false
  | some r => jsToLower r = jsToLower continentName

/-- The `.filter(...)` step of the continent handler. -/
def filterByContinent (catalog : List CountryData) (continentName : String) :
    List CountryData :=
  catalog.filter (fun c => regionMatches c continentName)

/-- The `.map(...)` arrow function of the continent handler
(src/server.js lines 117-124); a TypeError (modelled `.error ()`) is
raised when `name`, `population` or `flags` is missing.  Here `area` IS
guarded by truthiness (0 is falsy). -/
def mapContinentCountry (c : CountryData) : Except Unit ContinentCountry :=
  match c.name with
  | none => .error ()
  | some nm =>
    match c.population with
    | none => .error ()
    | some pop =>
      match c.flags with
      | none => .error ()
      | some fl =>
        .ok { countryName := nm.common
            , capitalCity := capitalField c.capital
            , population := jsLocaleInt pop
            , area :=
                match c.area with
                | none => "Not Available"
                | some a => if a = 0 then "Not Available" else jsLocaleRat a ++ " km²"
            , languages :=
                match c.languages with
                | none => "Not Available"
                | some ls => jsJoinStr ls
            , flag := jsTruthyOr fl.svg "Not Available" }

/-- The continent-label normalisation of src/server.js line 127:
`name.charAt(0).toUpperCase() + name.slice(1).toLowerCase()`. -/
def jsCapitalize (s : String) : String :=
  jsToUpper (String.mk (s.data.take 1)) ++ jsToLower (String.mk (s.data.drop 1))

/-- GET /continent/:continentName (src/server.js lines 111-135). -/
def getCountriesByContinent (continentName : String)
    (upstream : Option (List CountryData)) : HResp ContinentListing :=
  match upstream with
  | none => .err 500 ("Error retrieving list of countries in " ++ continentName)
  | some catalog =>
    match mapExcept mapContinentCountry (filterByContinent catalog continentName) with
    | .ok cs =>
      .json { continent := jsCapitalize continentName
            , numberOfCountries := cs.length
            , countries := cs }
    | .error _ => .err 500 ("Error retrieving list of countries in " ++ continentName)

/-! ### Currency payloads and the two conversion handlers -/

/-- Body of a 2xx response of the USD→EUR rate upstream (compact=ultra
yields a single-key object; a missing key reads as undefined). -/
structure UsdEurPayload where
  USD_EUR : Option ℚ
  deriving Repr, DecidableEq

/-- Body of a 2xx response of the JPY→GBP rate upstream. -/
structure JpyGbpPayload where
  JPY_GBP : Option ℚ
  deriving Repr, DecidableEq

/-- The JSON body built by both conversion handlers.  `conversionRate` is
`none` when the upstream body lacked the rate key (res.json then omits the
key). -/
structure ConversionResult where
  fromCurrency : String
  toCurrency : String
  originalAmount : String
  convertedAmount : String
  conversionRate : Option ℚ
  deriving Repr, DecidableEq

/-- GET /convert/usd-to-eur (src/server.js lines 151-172).  `amount` is
the raw query value (`none` when absent); the falsy check fires before any
upstream interaction, so the error branch does not read `upstream`. -/
def convertUsdToEur (amount : Option String)
    (upstream : Option UsdEurPayload) : HResp ConversionResult :=
  if jsTruthyStr amount = false then .err 400 "Please provide an amount to convert."
  else
    match upstream with
    | none => .err 500 "Error converting USD to EUR"
    | some p =>
      let amt := amount.getD ""
      .json { fromCurrency := "USD"
            , toCurrency := "EUR"
            , originalAmount := amt ++ " USD"
            , convertedAmount := jsToFixed2 (jsMulOpt (jsParseNumber amt) p.USD_EUR) ++ " EUR"
            , conversionRate := p.USD_EUR }

/-- GET /convert/jpy-to-gbp (src/server.js lines 175-196). -/
def convertJpyToGbp (amount : Option String)
    (upstream : Option JpyGbpPayload) : HResp ConversionResult :=
  if jsTruthyStr amount = false then .err 400 "Please provide an amount to convert."
  else
    match upstream with
    | none => .err 500 "Error converting JPY to GBP"
    | some p =>
      let amt := amount.getD ""
      .json { fromCurrency := "JPY"
            , toCurrency := "GBP"
            , originalAmount := amt ++ " JPY"
            , convertedAmount := jsToFixed2 (jsMulOpt (jsParseNumber amt) p.JPY_GBP) ++ " GBP"
            , conversionRate := p.JPY_GBP }

/-! ### Helper lemmas -/

/-- Specification of a successful `mapExcept` run: same length and
pointwise image, in order. -/
theorem mapExcept_ok_spec {α β : Type} (f : α → Except Unit β) :
    ∀ (l : List α) (r : List β), mapExcept f l = .ok r →
      r.length = l.length ∧
      ∀ (i : Nat) (h : i < l.length) (h' : i < r.length),
        f (l.get ⟨i, h⟩) = .ok (r.get ⟨i, h'⟩) := by
  intro l
  induction l with
  | nil =>
    intro r hr
    injection hr with h
    subst h
    exact ⟨rfl, by intro i h h'; exact absurd h (Nat.not_lt_zero i)⟩
  | cons a as ih =>
    intro r hr
    unfold mapExcept at hr
    cases hfa : f a with
    | error e => rw [hfa] at hr; exact Except.noConfusion hr
    | ok b =>
      rw [hfa] at hr
      cases hmas : mapExcept f as with
      | error e => rw [hmas] at hr; exact Except.noConfusion hr
      | ok bs =>
        rw [hmas] at hr
        injection hr with h
        subst h
        obtain ⟨hlen, hget⟩ := ih bs hmas
        refine ⟨by simp [hlen], ?_⟩
        intro i h h'
        cases i with
        | zero => simpa using hfa
        | succ j =>
          have hj : j < as.length := by simpa using h
          have hj' : j < bs.length := by simpa using hlen ▸ hj
          simpa using hget j hj hj'

/-! ### Claim theorems -/

/-- C1, counterexample: a first result missing only `area` (all other
optional fields present) makes the country handler respond 500, not a
success with `area = "Not Available"`. -/
theorem country_missing_area_counterexample :
    getCountryInfo "France"
        (some [{ name := some ⟨some "France"⟩, capital := some ["Paris"],
                 population := some 67000000, area := none,
                 languages := some ["French"], currencies := some [⟨some "Euro"⟩],
                 region := some "Europe", subregion := some "Western Europe",
                 flags := some ⟨some "fr.svg"⟩ }]) =
      .err 500 "Error retrieving information about France" := by
  rfl

/-- C1, amended: with the required fields `name`, `population`, `area`
and the `flags` object present, a first result missing any of `capital`,
`languages`, `currencies`, `subregion`, or the `svg` URL inside `flags`,
still succeeds and the corresponding profile field is the sentinel
"Not Available"; a missing `area` (see the counterexample) instead yields
the 500 failure response. -/
theorem country_optional_fields_default (n : String)
    (nm : NameObj) (cap : Option (List String)) (pop : Int) (ar : ℚ)
    (lang : Option (List String)) (cur : Option (List CurrencyObj))
    (reg sub : Option String) (flsvg : Option String) (rest : List CountryData) :
    ∃ profile,
      getCountryInfo n
          (some ({ name := some nm, capital := cap, population := some pop,
                   area := some ar, languages := lang, currencies := cur,
                   region := reg, subregion := sub,
                   flags := some { svg := flsvg } } :: rest)) = .json profile ∧
      (cap = none → profile.capitalCity = some "Not Available") ∧
      (lang = none → profile.officialLanguage = "Not Available") ∧
      (cur = none → profile.currencies = "Not Available") ∧
      (sub = none → profile.subregion = "Not Available") ∧
      (flsvg = none → profile.flag = "Not Available") := by
  refine ⟨_, rfl, ?_, ?_, ?_, ?_, ?_⟩ <;> rintro rfl <;> rfl

/-- Witness for the amended theorem of C1 at a concrete payload. -/
theorem country_optional_fields_default_witness :
    ∃ profile,
      getCountryInfo "France"
          (some [{ name := some ⟨some "France"⟩, capital := none,
                   population := some 67000000, area := some 543940,
                   languages := none, currencies := none,
                   region := some "Europe", subregion := none,
                   flags := some { svg := none } }]) = .json profile ∧
      profile.capitalCity = some "Not Available" ∧
      profile.officialLanguage = "Not Available" ∧
      profile.currencies = "Not Available" ∧
      profile.subregion = "Not Available" ∧
      profile.flag = "Not Available" := by
  obtain ⟨p, h1, h2, h3, h4, h5, h6⟩ :=
    country_optional_fields_default "France" ⟨some "France"⟩ none 67000000 543940
      none none (some "Europe") none none []
  exact ⟨p, h1, h2 rfl, h3 rfl, h4 rfl, h5 rfl, h6 rfl⟩

/-- C2, counterexample: an upstream 2xx payload of unexpected shape (the
`USD_EUR` rate key missing) does NOT produce a 500: the handler answers
200 with "NaN EUR" in the JSON body. -/
theorem usd_missing_rate_counterexample :
    convertUsdToEur (some "100") (some { USD_EUR := none }) =
      .json { fromCurrency := "USD", toCurrency := "EUR", originalAmount := "100 USD",
              convertedAmount := "NaN EUR", conversionRate := none } := by
  rfl

/-- C2, amended: for every upstream failure that makes the HTTP client
throw (network error or non-2xx status, modelled as an absent payload),
each of the six data-fetching handlers responds 500 with exactly its
documented fixed or templated message and no JSON body; a 2xx payload of
unexpected shape causes the 500 only when a required containing object is
missing, while a payload merely missing leaf values succeeds with
placeholder values (see the counterexample). -/
theorem upstream_failure_yields_500 :
    (∀ city country : String,
        getCurrentWeather city country none = .err 500 "Error retrieving current weather") ∧
    (∀ city country : String,
        getForecast city country none = .err 500 "Error retrieving 5-day forecast") ∧
    (∀ n : String,
        getCountryInfo n none = .err 500 ("Error retrieving information about " ++ n)) ∧
    (∀ n : String,
        getCountriesByContinent n none =
          .err 500 ("Error retrieving list of countries in " ++ n)) ∧
    (∀ a : Option String, jsTruthyStr a = true →
        convertUsdToEur a none = .err 500 "Error converting USD to EUR") ∧
    (∀ a : Option String, jsTruthyStr a = true →
        convertJpyToGbp a none = .err 500 "Error converting JPY to GBP") := by
  refine ⟨fun _ _ => rfl, fun _ _ => rfl, fun _ => rfl, fun _ => rfl, ?_, ?_⟩ <;>
    intro a h <;> simp [convertUsdToEur, convertJpyToGbp, h]

/-- Witness for the amended theorem of C2 at concrete inputs. -/
theorem upstream_failure_yields_500_witness :
    getCurrentWeather "London" "UK" none = .err 500 "Error retrieving current weather" ∧
    convertUsdToEur (some "100") none = .err 500 "Error converting USD to EUR" ∧
    convertJpyToGbp (some "5") none = .err 500 "Error converting JPY to GBP" :=
  ⟨upstream_failure_yields_500.1 "London" "UK",
   upstream_failure_yields_500.2.2.2.2.1 (some "100") (by decide),
   upstream_failure_yields_500.2.2.2.2.2 (some "5") (by decide)⟩

/-- C3: a missing `amount` query value makes both conversion handlers
answer 400 with the prompt message, whatever the upstream would say
(the quantification over `up` expresses that no upstream request is
consulted). -/
theorem missing_amount_returns_400 :
    (∀ up : Option UsdEurPayload,
        convertUsdToEur none up = .err 400 "Please provide an amount to convert.") ∧
    (∀ up : Option JpyGbpPayload,
        convertJpyToGbp none up = .err 400 "Please provide an amount to convert.") := by
  constructor <;> intro up <;> rfl

/-- C4: for every present numeric amount and every fetched rate, both
conversion handlers return `rate * amount` rendered by `toFixed(2)` with
the currency suffix, and echo the raw rate as `conversionRate`. -/
theorem conversion_rounds_two_decimals (amt : String) (q r r2 : ℚ)
    (h1 : jsTruthyStr (some amt) = true) (h2 : jsParseNumber amt = some q) :
    convertUsdToEur (some amt) (some { USD_EUR := some r }) =
      .json { fromCurrency := "USD", toCurrency := "EUR", originalAmount := amt ++ " USD",
              convertedAmount := ratToFixed2 (q * r) ++ " EUR",
              conversionRate := some r } ∧
    convertJpyToGbp (some amt) (some { JPY_GBP := some r2 }) =
      .json { fromCurrency := "JPY", toCurrency := "GBP", originalAmount := amt ++ " JPY",
              convertedAmount := ratToFixed2 (q * r2) ++ " GBP",
              conversionRate := some r2 } := by
  constructor <;>
    simp [convertUsdToEur, convertJpyToGbp, h1, h2, jsMulOpt, jsToFixed2, Option.getD]

/-- Witness for C4 at the concrete instance named in the claim: amount "100" and
rate 0.92 yield "92.00 EUR" and conversionRate 0.92. -/
theorem conversion_rounds_two_decimals_witness :
    convertUsdToEur (some "100") (some { USD_EUR := some (92 / 100) }) =
      .json { fromCurrency := "USD", toCurrency := "EUR", originalAmount := "100 USD",
              convertedAmount := "92.00 EUR", conversionRate := some (92 / 100) } := by
  rw [(conversion_rounds_two_decimals "100" ((100 : ℕ) : ℚ) (92 / 100) (92 / 100)
        (by decide) (by decide)).1]
  rw [show ((100 : ℕ) : ℚ) * (92 / 100) = 92 from by norm_num,
      show ratToFixed2 (92 : ℚ) = "92.00" from by decide]
  rfl

/-- C5: the continent filter is case-insensitive in the path parameter
(two parameters with the same lower-casing produce the same filtered and
mapped country lists), and a country passes the filter exactly when its
`region` is present and equals the parameter case-insensitively. -/
theorem continent_filter_case_insensitive :
    (∀ (catalog : List CountryData) (p1 p2 : String), jsToLower p1 = jsToLower p2 →
        filterByContinent catalog p1 = filterByContinent catalog p2 ∧
        mapExcept mapContinentCountry (filterByContinent catalog p1) =
          mapExcept mapContinentCountry (filterByContinent catalog p2)) ∧
    (∀ (catalog : List CountryData) (name : String) (c : CountryData),
        c ∈ filterByContinent catalog name ↔
          c ∈ catalog ∧ ∃ r, c.region = some r ∧ jsToLower r = jsToLower name) := by
  constructor
  · intro catalog p1 p2 h
    have hf : filterByContinent catalog p1 = filterByContinent catalog p2 := by
      unfold filterByContinent
      apply List.filter_congr
      intro c _
      unfold regionMatches
      cases c.region with
      | none => rfl
      | some r => simp [h]
    exact ⟨hf, by rw [hf]⟩
  · intro catalog name c
    unfold filterByContinent
    rw [List.mem_filter]
    unfold regionMatches
    cases hr : c.region with
    | none => simp
    | some r => simp

/-- Witness for C5 at a concrete catalog and the parameters "africa" and
"AFRICA". -/
theorem continent_filter_case_insensitive_witness :
    filterByContinent
        [{ name := some ⟨some "Kenya"⟩, capital := some ["Nairobi"],
           population := some 53000000, area := some 580367,
           languages := some ["Swahili"], currencies := some [⟨some "Shilling"⟩],
           region := some "Africa", subregion := some "Eastern Africa",
           flags := some ⟨some "ke.svg"⟩ }] "africa" =
      filterByContinent
        [{ name := some ⟨some "Kenya"⟩, capital := some ["Nairobi"],
           population := some 53000000, area := some 580367,
           languages := some ["Swahili"], currencies := some [⟨some "Shilling"⟩],
           region := some "Africa", subregion := some "Eastern Africa",
           flags := some ⟨some "ke.svg"⟩ }] "AFRICA" :=
  (continent_filter_case_insensitive.1 _ "africa" "AFRICA" (by decide)).1

/-- C6: an empty match set is a success with an empty list and count 0;
on every success the count equals the length of the returned list and the
continent label is the capitalized parameter. -/
theorem continent_empty_not_error :
    (∀ (name : String) (catalog : List CountryData),
        (∀ c ∈ catalog, regionMatches c name = false) →
        getCountriesByContinent name (some catalog) =
          .json { continent := jsCapitalize name, numberOfCountries := 0, countries := [] }) ∧
    (∀ (name : String) (catalog : List CountryData) (body : ContinentListing),
        getCountriesByContinent name (some catalog) = .json body →
        body.numberOfCountries = body.countries.length ∧
        body.continent = jsCapitalize name) := by
  constructor
  · intro name catalog h
    have hf : filterByContinent catalog name = [] := by
      unfold filterByContinent
      rw [List.filter_eq_nil_iff]
      intro c hc
      simp [h c hc]
    simp only [getCountriesByContinent, hf]
    rfl
  · intro name catalog body hb
    simp only [getCountriesByContinent] at hb
    cases hm : mapExcept mapContinentCountry (filterByContinent catalog name) with
    | ok cs =>
      rw [hm] at hb
      injection hb with h
      rw [← h]
      exact ⟨rfl, rfl⟩
    | error e =>
      rw [hm] at hb
      exact HResp.noConfusion hb

/-- Witness for C6 at a concrete continent with no matches. -/
theorem continent_empty_not_error_witness :
    getCountriesByContinent "atlantis" (some []) =
      .json { continent := "Atlantis", numberOfCountries := 0, countries := [] } := by
  rw [continent_empty_not_error.1 "atlantis" []
        (by intro c hc; exact absurd hc (List.not_mem_nil c))]
  decide

/-- C7: the country handler uses only the first element of the upstream
fuzzy-match list: payloads with the same first element give identical
responses (in particular the upstream order is taken as-is, never
re-sorted). -/
theorem country_uses_first_result (n : String) (d1 d2 : List CountryData)
    (h : d1.head? = d2.head?) :
    getCountryInfo n (some d1) = getCountryInfo n (some d2) := by
  simp only [getCountryInfo]
  rw [h]

/-- Witness for C7: dropping every fuzzy match after the first leaves the
response unchanged. -/
theorem country_uses_first_result_witness :
    getCountryInfo "peru"
        (some [{ name := some ⟨some "Peru"⟩, capital := some ["Lima"],
                 population := some 33000000, area := some 1285216,
                 languages := some ["Spanish"], currencies := some [⟨some "Sol"⟩],
                 region := some "Americas", subregion := some "South America",
                 flags := some ⟨some "pe.svg"⟩ }]) =
      getCountryInfo "peru"
        (some [{ name := some ⟨some "Peru"⟩, capital := some ["Lima"],
                 population := some 33000000, area := some 1285216,
                 languages := some ["Spanish"], currencies := some [⟨some "Sol"⟩],
                 region := some "Americas", subregion := some "South America",
                 flags := some ⟨some "pe.svg"⟩ },
               { name := some ⟨some "Chile"⟩, capital := some ["Santiago"],
                 population := some 19000000, area := some 756102,
                 languages := some ["Spanish"], currencies := some [⟨some "Peso"⟩],
                 region := some "Americas", subregion := some "South America",
                 flags := some ⟨some "cl.svg"⟩ }]) :=
  country_uses_first_result "peru" _ _ rfl

/-- C10: a catalog country whose `region` is absent never passes the
continent filter, and removing it from the catalog changes neither the
filter result nor the handler response (it is silently excluded and never
causes a failure). -/
theorem regionless_country_excluded (name : String) (c : CountryData)
    (catalog : List CountryData) (h : c.region = none) :
    c ∉ filterByContinent catalog name ∧
    filterByContinent (c :: catalog) name = filterByContinent catalog name ∧
    getCountriesByContinent name (some (c :: catalog)) =
      getCountriesByContinent name (some catalog) := by
  have hrm : regionMatches c name = false := by
    unfold regionMatches
    rw [h]
  have h2 : filterByContinent (c :: catalog) name = filterByContinent catalog name := by
    unfold filterByContinent
    rw [List.filter_cons_of_neg]
    simp [hrm]
  refine ⟨?_, h2, ?_⟩
  · intro hmem
    rw [filterByContinent, List.mem_filter, hrm] at hmem
    exact absurd hmem.2 (by simp)
  · simp only [getCountriesByContinent]
    rw [h2]

/-- Witness for C10 at a concrete regionless country. -/
theorem regionless_country_excluded_witness :
    getCountriesByContinent "africa"
        (some [{ name := some ⟨some "Nowhere"⟩, capital := some ["X"],
                 population := some 5, area := some 1, languages := some ["Y"],
                 currencies := some [⟨some "Z"⟩], region := none, subregion := none,
                 flags := some ⟨some "n.svg"⟩ }]) =
      getCountriesByContinent "africa" (some []) :=
  (regionless_country_excluded "africa" _ [] rfl).2.2

/-- C8: on every success of the forecast handler, the returned sequence
has the same length as the upstream list and its i-th element is the
1:1 image of the i-th upstream entry (order preserved, no pagination or
truncation). -/
theorem forecast_one_to_one (city country : String) (p : ForecastPayload)
    (items : List ForecastItem) (body : ForecastResult)
    (hl : p.list = some items)
    (hj : getForecast city country (some p) = .json body) :
    body.forecast.length = items.length ∧
    ∀ (i : Nat) (h : i < items.length) (h' : i < body.forecast.length),
      buildForecastEntry (items.get ⟨i, h⟩) = .ok (body.forecast.get ⟨i, h'⟩) := by
  simp only [getForecast, hl] at hj
  cases hm : mapExcept buildForecastEntry items with
  | error e => rw [hm] at hj; exact HResp.noConfusion hj
  | ok entries =>
    rw [hm] at hj
    injection hj with h
    obtain ⟨hlen, hget⟩ := mapExcept_ok_spec buildForecastEntry items entries hm
    rw [← h]
    exact ⟨hlen, hget⟩

/-- Witness for C8 at a one-entry upstream list. -/
theorem forecast_one_to_one_witness :
    buildForecastEntry
        { dt := none,
          main := some { temp := some 5, feels_like := some 4, humidity := some 70 },
          weather := some [{ main := some "Rain", description := some "light rain" }],
          wind := some { speed := some 3 } } =
      .ok { date := "Invalid Date", time := "Invalid Date", temperature := "5°C",
            feels_like := "4°C", main := some "Rain", description := some "light rain",
            wind_speed := "3 m/s", humidity := "70%" } :=
  (forecast_one_to_one "a" "b"
      ⟨some [{ dt := none,
               main := some { temp := some 5, feels_like := some 4, humidity := some 70 },
               weather := some [{ main := some "Rain", description := some "light rain" }],
               wind := some { speed := some 3 } }]⟩
      [{ dt := none,
         main := some { temp := some 5, feels_like := some 4, humidity := some 70 },
         weather := some [{ main := some "Rain", description := some "light rain" }],
         wind := some { speed := some 3 } }]
      ⟨"a, b", [{ date := "Invalid Date", time := "Invalid Date", temperature := "5°C",
                  feels_like := "4°C", main := some "Rain",
                  description := some "light rain",
                  wind_speed := "3 m/s", humidity := "70%" }]⟩
      rfl (by decide)).2 0 (by decide) (by decide)

/-- C9: on every success of the current-weather handler on a payload with
the numeric leaves present, the response carries the upstream temperature
and feels-like values suffixed with °C, the humidity suffixed with %, and
the wind speed suffixed with a space and m/s. -/
theorem weather_unit_suffixes (city country : String)
    (conds : List WeatherCond) (c0 : WeatherCond) (t fl hu sp : ℚ) (sy : SysInfo)
    (w : WeatherSummary) (hhead : conds.head? = some c0)
    (hj : getCurrentWeather city country
        (some { weather := some conds
              , main := some { temp := some t, feels_like := some fl, humidity := some hu }
              , wind := some { speed := some sp }
              , sys := some sy }) = .json w) :
    w.temperature = jsNumToString t ++ "°C" ∧
    w.feels_like = jsNumToString fl ++ "°C" ∧
    w.humidity = jsNumToString hu ++ "%" ∧
    w.wind_speed = jsNumToString sp ++ " m/s" := by
  simp only [getCurrentWeather, buildWeatherSummary, hhead] at hj
  injection hj with h
  rw [← h]
  exact ⟨rfl, rfl, rfl, rfl⟩

/-- Witness for C9 at a concrete payload. -/
theorem weather_unit_suffixes_witness :
    (WeatherSummary.mk "Lisbon, PT" (some "clear sky") "5°C" "4°C" "70%" "3 m/s"
        "00:00:00" "23:59:59").temperature = jsNumToString 5 ++ "°C" ∧
    (WeatherSummary.mk "Lisbon, PT" (some "clear sky") "5°C" "4°C" "70%" "3 m/s"
        "00:00:00" "23:59:59").feels_like = jsNumToString 4 ++ "°C" ∧
    (WeatherSummary.mk "Lisbon, PT" (some "clear sky") "5°C" "4°C" "70%" "3 m/s"
        "00:00:00" "23:59:59").humidity = jsNumToString 70 ++ "%" ∧
    (WeatherSummary.mk "Lisbon, PT" (some "clear sky") "5°C" "4°C" "70%" "3 m/s"
        "00:00:00" "23:59:59").wind_speed = jsNumToString 3 ++ " m/s" :=
  weather_unit_suffixes "Lisbon" "PT"
    [{ main := some "Clear", description := some "clear sky" }]
    { main := some "Clear", description := some "clear sky" }
    5 4 70 3 { sunrise := some 0, sunset := some 86399 }
    (WeatherSummary.mk "Lisbon, PT" (some "clear sky") "5°C" "4°C" "70%" "3 m/s"
        "00:00:00" "23:59:59")
    rfl (by decide)
